import Mathlib

/-
Shallow embedding of `tools/build.py` (the spice build orchestrator).

The script parses a command line with argparse, ensures a build directory,
then runs a fixed pipeline of external processes: cmake (configure), a
best-effort `ln -s` for the compile-command database, `make` (build, with a
second `make spice_coverage` when that target is selected), optionally a
doxygen wrapper, and optionally the freshly built run target.

We model an invocation as a pure function from the parsed arguments and an
environment of external exit codes to the ordered list of observable
effects (directory creation, process spawns with their working directory,
console notifications tagged by severity, argparse usage errors) together
with the orchestrator's final exit code.
-/

namespace BuildPy

/-- The known build targets, `TARGETS` in `tools/build.py` (lines 16-20). -/
def TARGETS : List String := ["spice", "tests", "spice_coverage"]

/-- Severity class of a console notification.  The script prints messages
wrapped in ANSI color escapes (`colors.SUCCESS`, `colors.WARNING`,
`colors.FAIL`, used directly or via `p_success` / `p_warning` / `p_fail`);
we record the severity tag instead of the escape bytes. -/
inductive Sev where
  | success
  | warning
  | fail
deriving DecidableEq, Repr

/-- One observable effect of an invocation of the script. -/
inductive Event where
  | makedirs (dir : String)
  | spawn (cmd : List String) (cwd : String)
  | notify (sev : Sev) (msg : String)
  | usageError (msg : String)
deriving DecidableEq, Repr

/-- Exit codes reported by the external processes the script may spawn.
Each field stands for the `returncode` the corresponding `subprocess.run`
call would observe in this invocation. -/
structure Env where
  cmakeCode : Int
  lnCode : Int
  makeCode : Int
  makeCovCode : Int
  doxygenCode : Int
  runCode : Int
deriving DecidableEq, Repr

/-- The parsed command line: the fields of argparse's `args` object
(lines 36-63).  `target` defaults to `TARGETS` when `--target` is absent;
`run` and `run_args` are `none` when the flags are absent;
`build_documentation` defaults to `false`. -/
structure Args where
  root : String
  build_type : String
  target : List String
  run : Option String
  run_args : Option String
  build_documentation : Bool
deriving DecidableEq, Repr

/-- `os.path.abspath(os.path.join(root, part))` (lines 65 and 108).  Path
normalisation is opaque to the pipeline logic — the result is only ever
passed on as a working directory — so joining is modelled as plain
concatenation with a separator. -/
def pathJoin (root part : String) : String := root ++ "/" ++ part

/-- The build directory `root/build` (line 65). -/
def build_dir (a : Args) : String := pathJoin a.root "build"

/-- The documentation directory `root/doc` (line 108). -/
def doc_dir (a : Args) : String := pathJoin a.root "doc"

/-- `', '.join(args.target)` as used in the notification messages. -/
def joinTargets (ts : List String) : String := String.intercalate ", " ts

/-- Message printed on configure success (lines 77-78). -/
def finishedBuildingMsg (ts : List String) : String :=
  "Finished building targets [" ++ joinTargets ts ++ "]."

/-- Message printed on configure failure (lines 87-88). -/
def buildingFailedMsg (ts : List String) : String :=
  "Building targets [" ++ joinTargets ts ++ "] failed. Aborting."

/-- Message printed on build success (lines 99-100). -/
def finishedMakingMsg (ts : List String) : String :=
  "Finished making targets [" ++ joinTargets ts ++ "]."

/-- Message printed on build failure (lines 102-103). -/
def makingFailedMsg (ts : List String) : String :=
  "Making targets [" ++ joinTargets ts ++ "] failed. Aborting."

/-- The cmake invocation (lines 70-74). -/
def cmakeCmd (bt : String) : List String :=
  ["cmake", "-DCMAKE_BUILD_TYPE=" ++ bt,
   "-DCMAKE_EXPORT_COMPILE_COMMANDS=ON", ".."]

/-- The compile-command database symlink invocation (lines 81-85). -/
def lnCmd : List String :=
  ["ln", "-s", "./compile_commands.json", "../compile_commands.json"]

/-- The documentation generator invocation (lines 110-114). -/
def doxygenCmd : List String :=
  ["../external/m.css/documentation/doxygen.py", "Doxyfile-mcss"]

/-- Python's `str.split()` with no separator: split on runs of whitespace,
discarding empty fragments.  `acc` holds the current fragment reversed. -/
def pySplitAux : List Char → List Char → List String
  | [], acc => if acc = [] then [] else [String.mk acc.reverse]
  | c :: cs, acc =>
    if c.isWhitespace then
      if acc = [] then pySplitAux cs []
      else String.mk acc.reverse :: pySplitAux cs []
    else pySplitAux cs (c :: acc)

/-- `s.split()` (line 122). -/
def pySplit (s : String) : List String := pySplitAux s.data []

/-- Lines 121-124: the run-step argument list is the whitespace-split
`--run-args` string when that is present and truthy (non-empty), and the
empty list otherwise. -/
def runArgsList : Option String → List String
  | some s => if s = "" then [] else pySplit s
  | none => []

/-- The `returncode` held by the `make` variable after lines 93-96: the
second invocation, for `spice_coverage`, overwrites the result of the first
whenever that target is selected; the gating test at line 98 and the test
at line 115 both read this variable. -/
def gateCode (a : Args) (env : Env) : Int :=
  if "spice_coverage" ∈ a.target then env.makeCovCode else env.makeCode

/-- The pipeline body of `tools/build.py` after argument parsing
(lines 65-127): the ordered list of observable effects together with the
script's final exit code (`sys.exit` at line 89 or 104, or falling off the
end with code 0). -/
def pipeline (a : Args) (env : Env) : List Event × Int :=
  let bdir := build_dir a
  let pre : List Event :=
    [Event.makedirs bdir, Event.spawn (cmakeCmd a.build_type) bdir]
  if env.cmakeCode = 0 then
    let afterConfigure := pre ++
      [Event.notify Sev.success (finishedBuildingMsg a.target),
       Event.spawn lnCmd bdir,
       Event.spawn ["make"] bdir]
    let afterMake := afterConfigure ++
      (if "spice_coverage" ∈ a.target then
        [Event.spawn ["make", "spice_coverage"] bdir]
      else [])
    if gateCode a env = 0 then
      let afterGate := afterMake ++
        [Event.notify Sev.success (finishedMakingMsg a.target)]
      let afterDocs :=
        if a.build_documentation then
          afterGate ++ [Event.spawn doxygenCmd (doc_dir a)] ++
            (if gateCode a env = 0 then
              [Event.notify Sev.success "Doxygen finished."]
            else
              [Event.notify Sev.fail "Doxygen failed."])
        else afterGate
      let afterRun :=
        match a.run with
        | some r => afterDocs ++
            [Event.spawn (("./" ++ r) :: runArgsList a.run_args) bdir]
        | none => afterDocs
      (afterRun, 0)
    else
      (afterMake ++ [Event.notify Sev.fail (makingFailedMsg a.target)],
       gateCode a env)
  else
    (pre ++ [Event.notify Sev.fail (buildingFailedMsg a.target)],
     env.cmakeCode)

/-- argparse's `choices` check for the `build_type` positional
(lines 39-45): the value must be exactly `Debug` or `Release`. -/
def validBuildType (bt : String) : Bool := bt = "Debug" || bt = "Release"

/-- argparse validation of the whole argument record: `build_type`,
every `--target` value and the `--run` value are restricted to their
respective `choices` lists (lines 39-55). -/
def parseOk (a : Args) : Bool :=
  validBuildType a.build_type &&
  a.target.all (fun t => TARGETS.contains t) &&
  (match a.run with
   | some r => TARGETS.contains r
   | none => true)

/-- A full invocation: argparse rejects an invalid argument vector with a
usage message and exit code 2 before any other effect (line 63 precedes
lines 65 onward); otherwise the pipeline runs. -/
def mainRun (a : Args) (env : Env) : List Event × Int :=
  if parseOk a then pipeline a env
  else ([Event.usageError "usage: build.py: invalid choice"], 2)

/-- The effects of an invocation. -/
def events (a : Args) (env : Env) : List Event := (mainRun a env).1

/-- The final exit code of an invocation. -/
def exitCode (a : Args) (env : Env) : Int := (mainRun a env).2

/-- The subsequence of spawned external commands, with working
directories, in spawn order. -/
def spawnsOf (evs : List Event) : List (List String × String) :=
  evs.filterMap fun e =>
    match e with
    | Event.spawn c d => some (c, d)
    | _ => none

/-- Whether an event is a console notification. -/
def isNotify : Event → Bool
  | Event.notify _ _ => true
  | _ => false

/-- The argument record produced by an invocation with only the two
required positionals: `--target` defaults to the full `TARGETS` list
(line 47), the other options are absent. -/
def defaultArgs (root bt : String) : Args :=
  { root := root, build_type := bt, target := TARGETS,
    run := none, run_args := none, build_documentation := false }

/-- An environment in which every external process succeeds. -/
def envAllZero : Env := ⟨0, 0, 0, 0, 0, 0⟩

/-- An environment in which the configure step fails with code 3. -/
def envCmakeFail : Env := ⟨3, 0, 0, 0, 0, 0⟩

/-- An environment in which the gating build invocation fails with code 5. -/
def envMakeCovFail : Env := ⟨0, 0, 0, 5, 0, 0⟩

/-- C1: if the configure step exits with non-zero code C, the cmake
invocation is the only external process ever spawned (in particular the
build step is never invoked), a failure notification naming the requested
targets is printed, and the final exit code is exactly C. -/
theorem configure_failure_short_circuits (a : Args) (env : Env)
    (hp : parseOk a = true) (hc : env.cmakeCode ≠ 0) :
    exitCode a env = env.cmakeCode ∧
    spawnsOf (events a env) = [(cmakeCmd a.build_type, build_dir a)] ∧
    Event.notify Sev.fail (buildingFailedMsg a.target) ∈ events a env := by
  simp [exitCode, events, mainRun, hp, pipeline, hc, spawnsOf]

/-- Witness for C1 at a concrete input: default arguments, cmake exiting 3. -/
theorem configure_failure_short_circuits_witness :
    exitCode (defaultArgs "." "Debug") envCmakeFail = envCmakeFail.cmakeCode ∧
    spawnsOf (events (defaultArgs "." "Debug") envCmakeFail) =
      [(cmakeCmd (defaultArgs "." "Debug").build_type,
        build_dir (defaultArgs "." "Debug"))] ∧
    Event.notify Sev.fail (buildingFailedMsg (defaultArgs "." "Debug").target) ∈
      events (defaultArgs "." "Debug") envCmakeFail :=
  configure_failure_short_circuits (defaultArgs "." "Debug") envCmakeFail
    (by decide) (by decide)

/-- C2: if configure reports 0 but the gating build invocation reports a
non-zero code C, the spawned processes are exactly cmake, the symlink, and
the build invocation(s) — so no documentation and no run step — a failure
notification is printed, and the final exit code is exactly C. -/
theorem make_failure_short_circuits (a : Args) (env : Env)
    (hp : parseOk a = true) (hc : env.cmakeCode = 0)
    (hm : gateCode a env ≠ 0) :
    exitCode a env = gateCode a env ∧
    spawnsOf (events a env) =
      [(cmakeCmd a.build_type, build_dir a), (lnCmd, build_dir a),
       (["make"], build_dir a)] ++
      (if "spice_coverage" ∈ a.target then
        [(["make", "spice_coverage"], build_dir a)]
      else []) ∧
    Event.notify Sev.fail (makingFailedMsg a.target) ∈ events a env := by
  by_cases hcov : "spice_coverage" ∈ a.target <;>
    simp [exitCode, events, mainRun, hp, pipeline, hc, hm, hcov, spawnsOf]

/-- Witness for C2 at a concrete input: default arguments (the gating
invocation is the second make since spice_coverage is selected by default),
that invocation exiting 5. -/
theorem make_failure_short_circuits_witness :
    exitCode (defaultArgs "." "Release") envMakeCovFail =
      gateCode (defaultArgs "." "Release") envMakeCovFail ∧
    spawnsOf (events (defaultArgs "." "Release") envMakeCovFail) =
      [(cmakeCmd (defaultArgs "." "Release").build_type,
        build_dir (defaultArgs "." "Release")),
       (lnCmd, build_dir (defaultArgs "." "Release")),
       (["make"], build_dir (defaultArgs "." "Release"))] ++
      (if "spice_coverage" ∈ (defaultArgs "." "Release").target then
        [(["make", "spice_coverage"], build_dir (defaultArgs "." "Release"))]
      else []) ∧
    Event.notify Sev.fail
        (makingFailedMsg (defaultArgs "." "Release").target) ∈
      events (defaultArgs "." "Release") envMakeCovFail :=
  make_failure_short_circuits (defaultArgs "." "Release") envMakeCovFail
    (by decide) (by decide) (by decide)

/-- C4: whenever configure and the gating build invocation both report 0,
the final exit code is 0, whatever the doxygen and run-step exit codes. -/
theorem success_exit_code_zero (a : Args) (env : Env)
    (hp : parseOk a = true) (hc : env.cmakeCode = 0)
    (hm : gateCode a env = 0) :
    exitCode a env = 0 := by
  cases hr : a.run <;>
    simp [exitCode, mainRun, hp, pipeline, hc, hm, hr]

/-- Arguments requesting documentation and a run target, for exercising the
doxygen and run steps. -/
def argsDocRun : Args :=
  { root := ".", build_type := "Release", target := ["spice"],
    run := some "spice", run_args := none, build_documentation := true }

/-- An environment in which the doc generator exits 7 and the run target
exits 9 while everything gating succeeds. -/
def envDocRunFail : Env := ⟨0, 0, 0, 0, 7, 9⟩

/-- Witness for C4 at a concrete input: documentation and run steps both
requested and both failing, final exit code still 0. -/
theorem success_exit_code_zero_witness :
    exitCode argsDocRun envDocRunFail = 0 :=
  success_exit_code_zero argsDocRun envDocRunFail
    (by decide) (by decide) (by decide)

/-- C8: an argument vector whose build-type is neither Debug nor Release is
rejected by argparse before any side effect: no process is spawned, no
directory is created, a usage error is emitted, and the exit code is 2,
hence non-zero. -/
theorem invalid_build_type_rejected (a : Args) (env : Env)
    (hbt : validBuildType a.build_type = false) :
    spawnsOf (events a env) = [] ∧
    (∀ d, Event.makedirs d ∉ events a env) ∧
    (∃ m, Event.usageError m ∈ events a env) ∧
    exitCode a env = 2 ∧ exitCode a env ≠ 0 := by
  have hp : parseOk a = false := by
    simp [parseOk, hbt]
  simp [exitCode, events, mainRun, hp, spawnsOf]

/-- Arguments with the invalid build type `Foo`. -/
def argsBadBuildType : Args :=
  { root := ".", build_type := "Foo", target := TARGETS,
    run := none, run_args := none, build_documentation := false }

/-- Witness for C8 at a concrete input: build type `Foo`. -/
theorem invalid_build_type_rejected_witness :
    spawnsOf (events argsBadBuildType envAllZero) = [] ∧
    (∀ d, Event.makedirs d ∉ events argsBadBuildType envAllZero) ∧
    (∃ m, Event.usageError m ∈ events argsBadBuildType envAllZero) ∧
    exitCode argsBadBuildType envAllZero = 2 ∧
    exitCode argsBadBuildType envAllZero ≠ 0 :=
  invalid_build_type_rejected argsBadBuildType envAllZero (by decide)

/-- C3 as stated is false: with no optional flags `--target` defaults to the
full `TARGETS` list, which contains `spice_coverage`, so beyond configure,
symlink and the general build invocation a fourth external process —
`make spice_coverage` — is spawned.  At root `/r`, build type `Debug` and
all external codes 0, the spawn list has four entries, not three. -/
theorem default_invocation_extra_coverage_make :
    (["make", "spice_coverage"], build_dir (defaultArgs "/r" "Debug")) ∈
      spawnsOf (events (defaultArgs "/r" "Debug") envAllZero) ∧
    spawnsOf (events (defaultArgs "/r" "Debug") envAllZero) ≠
      [(cmakeCmd "Debug", build_dir (defaultArgs "/r" "Debug")),
       (lnCmd, build_dir (defaultArgs "/r" "Debug")),
       (["make"], build_dir (defaultArgs "/r" "Debug"))] := by
  decide

/-- C3 amended: for every valid (root, buildType) pair, invoking with no
optional flags spawns exactly the configure invocation, the best-effort
symlink creation, the general build invocation, and a second build
invocation for `spice_coverage` (present because the default target list
contains it), in that order and no other external process, and returns exit
code 0 when the configure invocation and the gating second build invocation
report 0. -/
theorem default_invocation_pipeline (root bt : String) (env : Env)
    (hbt : validBuildType bt = true)
    (hc : env.cmakeCode = 0) (hm : env.makeCovCode = 0) :
    spawnsOf (events (defaultArgs root bt) env) =
      [(cmakeCmd bt, build_dir (defaultArgs root bt)),
       (lnCmd, build_dir (defaultArgs root bt)),
       (["make"], build_dir (defaultArgs root bt)),
       (["make", "spice_coverage"], build_dir (defaultArgs root bt))] ∧
    exitCode (defaultArgs root bt) env = 0 := by
  have hp : parseOk (defaultArgs root bt) = true := by
    simp [parseOk, defaultArgs, hbt]
  have hg : gateCode (defaultArgs root bt) env = 0 := by
    simp [gateCode, defaultArgs, TARGETS, hm]
  have htgt : (defaultArgs root bt).target = TARGETS := rfl
  have hrun : (defaultArgs root bt).run = none := rfl
  have hdoc : (defaultArgs root bt).build_documentation = false := rfl
  have hbtv : (defaultArgs root bt).build_type = bt := rfl
  constructor
  · simp [events, mainRun, hp, pipeline, hc, hg, htgt, hrun, hdoc, hbtv,
      TARGETS, spawnsOf]
  · exact success_exit_code_zero (defaultArgs root bt) env hp hc hg

/-- Witness for the amended C3 at a concrete input. -/
theorem default_invocation_pipeline_witness :
    spawnsOf (events (defaultArgs "/r" "Release") envAllZero) =
      [(cmakeCmd "Release", build_dir (defaultArgs "/r" "Release")),
       (lnCmd, build_dir (defaultArgs "/r" "Release")),
       (["make"], build_dir (defaultArgs "/r" "Release")),
       (["make", "spice_coverage"], build_dir (defaultArgs "/r" "Release"))] ∧
    exitCode (defaultArgs "/r" "Release") envAllZero = 0 :=
  default_invocation_pipeline "/r" "Release" envAllZero
    (by decide) (by decide) (by decide)

/-- Arguments requesting documentation only. -/
def argsDocs : Args :=
  { root := ".", build_type := "Release", target := ["spice"],
    run := none, run_args := none, build_documentation := true }

/-- An environment in which only the doc generator fails (code 1). -/
def envDoxygenFail : Env := ⟨0, 0, 0, 0, 1, 0⟩

/-- C5 is false on the code (line 115 tests `make.returncode`, which is
necessarily 0 at that point, instead of `doxygen.returncode`): with the doc
generator failing with code 1, the doc step runs, yet the success
notification is printed and the failure notification is not. -/
theorem doc_failure_misreported :
    (doxygenCmd, doc_dir argsDocs) ∈ spawnsOf (events argsDocs envDoxygenFail) ∧
    envDoxygenFail.doxygenCode ≠ 0 ∧
    Event.notify Sev.success "Doxygen finished." ∈
      events argsDocs envDoxygenFail ∧
    Event.notify Sev.fail "Doxygen failed." ∉ events argsDocs envDoxygenFail := by
  decide

/-- C6: whenever `spice_coverage` is among the selected targets and the
configure step succeeds, the first four spawned processes are configure,
symlink, the general build invocation and the `spice_coverage` build
invocation, in that order, and the final exit code is determined solely by
the second build invocation's code (the first build invocation's code does
not occur in the expression). -/
theorem coverage_double_make (a : Args) (env : Env)
    (hp : parseOk a = true) (hcov : "spice_coverage" ∈ a.target)
    (hc : env.cmakeCode = 0) :
    (spawnsOf (events a env)).take 4 =
      [(cmakeCmd a.build_type, build_dir a), (lnCmd, build_dir a),
       (["make"], build_dir a), (["make", "spice_coverage"], build_dir a)] ∧
    exitCode a env = (if env.makeCovCode = 0 then 0 else env.makeCovCode) := by
  have hg : gateCode a env = env.makeCovCode := by
    simp [gateCode, hcov]
  by_cases hm : env.makeCovCode = 0 <;> cases hr : a.run <;>
    cases hd : a.build_documentation <;>
    simp [events, exitCode, mainRun, hp, pipeline, hc, hg, hm, hcov, hr, hd,
      spawnsOf]

/-- An environment in which the first build invocation fails (code 1) while
everything else succeeds. -/
def envMakeFail : Env := ⟨0, 0, 1, 0, 0, 0⟩

/-- Arguments selecting only the `spice_coverage` target. -/
def argsCoverage : Args :=
  { root := ".", build_type := "Debug", target := ["spice_coverage"],
    run := none, run_args := none, build_documentation := false }

/-- Witness for C6 at a concrete input: the first build invocation exits 1,
the coverage invocation exits 0, and the pipeline still succeeds. -/
theorem coverage_double_make_witness :
    (spawnsOf (events argsCoverage envMakeFail)).take 4 =
      [(cmakeCmd argsCoverage.build_type, build_dir argsCoverage),
       (lnCmd, build_dir argsCoverage),
       (["make"], build_dir argsCoverage),
       (["make", "spice_coverage"], build_dir argsCoverage)] ∧
    exitCode argsCoverage envMakeFail =
      (if envMakeFail.makeCovCode = 0 then 0 else envMakeFail.makeCovCode) :=
  coverage_double_make argsCoverage envMakeFail
    (by decide) (by decide) (by decide)

/-- C7: when a run target is requested and configure and the gating build
invocation succeed, the spawned processes end with the run invocation: the
relative path `./runTarget` followed by exactly the whitespace-split
run-args sequence (empty when `--run-args` is absent), with the build
directory as working directory; and splitting behaves as specified on the
example string. -/
theorem run_step_invocation (a : Args) (env : Env) (r : String)
    (hp : parseOk a = true) (hr : a.run = some r)
    (hc : env.cmakeCode = 0) (hm : gateCode a env = 0) :
    spawnsOf (events a env) =
      [(cmakeCmd a.build_type, build_dir a), (lnCmd, build_dir a),
       (["make"], build_dir a)] ++
      (if "spice_coverage" ∈ a.target then
        [(["make", "spice_coverage"], build_dir a)]
      else []) ++
      (if a.build_documentation then [(doxygenCmd, doc_dir a)] else []) ++
      [(("./" ++ r) :: runArgsList a.run_args, build_dir a)] ∧
    runArgsList none = [] ∧
    runArgsList (some "a b c") = ["a", "b", "c"] := by
  refine ⟨?_, by decide, by decide⟩
  by_cases hcov : "spice_coverage" ∈ a.target <;>
    cases hd : a.build_documentation <;>
    simp [events, mainRun, hp, pipeline, hc, hm, hcov, hd, hr, spawnsOf]

/-- Arguments requesting a run of `tests` with run-args `a b c`. -/
def argsRun : Args :=
  { root := ".", build_type := "Debug", target := ["tests"],
    run := some "tests", run_args := some "a b c",
    build_documentation := false }

/-- Witness for C7 at a concrete input: `--run tests --run-args "a b c"`. -/
theorem run_step_invocation_witness :
    spawnsOf (events argsRun envAllZero) =
      [(cmakeCmd argsRun.build_type, build_dir argsRun),
       (lnCmd, build_dir argsRun),
       (["make"], build_dir argsRun)] ++
      (if "spice_coverage" ∈ argsRun.target then
        [(["make", "spice_coverage"], build_dir argsRun)]
      else []) ++
      (if argsRun.build_documentation then
        [(doxygenCmd, doc_dir argsRun)]
      else []) ++
      [(("./" ++ "tests") :: runArgsList argsRun.run_args,
        build_dir argsRun)] ∧
    runArgsList none = [] ∧
    runArgsList (some "a b c") = ["a", "b", "c"] :=
  run_step_invocation argsRun envAllZero "tests"
    (by decide) (by decide) (by decide) (by decide)

/-- Arguments selecting only `tests` but requesting a run of
`spice_coverage`. -/
def argsRunNotInTargets : Args :=
  { root := ".", build_type := "Debug", target := ["tests"],
    run := some "spice_coverage", run_args := none,
    build_documentation := false }

/-- C9 is false on the code: the help text promises that a `--run` target
absent from `--target` is appended to the target list, but the pipeline
never modifies `args.target`.  With `--target tests --run spice_coverage`
and all external processes succeeding, the `spice_coverage` special case
does not fire (no second build invocation is spawned) and the notifications
name only `[tests]`, not a list containing `spice_coverage`. -/
theorem run_target_not_added :
    (["make", "spice_coverage"], build_dir argsRunNotInTargets) ∉
      spawnsOf (events argsRunNotInTargets envAllZero) ∧
    Event.notify Sev.success (finishedMakingMsg ["tests"]) ∈
      events argsRunNotInTargets envAllZero ∧
    Event.notify Sev.success (finishedMakingMsg ["tests", "spice_coverage"]) ∉
      events argsRunNotInTargets envAllZero := by
  decide

/-- C10: two argument vectors that differ only in the target selection and
agree on whether `spice_coverage` is selected produce, for the same
external exit codes, exactly the same non-notification effects — the same
directory creation and the same spawned commands in the same order — and
the same final exit code; the target selection can only influence
notification text. -/
theorem target_selection_noninterference (a a' : Args) (env : Env)
    (hp : parseOk a = true) (hp' : parseOk a' = true)
    (hroot : a.root = a'.root) (hbt : a.build_type = a'.build_type)
    (hrun : a.run = a'.run) (hra : a.run_args = a'.run_args)
    (hdoc : a.build_documentation = a'.build_documentation)
    (hcov : ("spice_coverage" ∈ a.target) ↔ ("spice_coverage" ∈ a'.target)) :
    (events a env).filter (fun e => !isNotify e) =
      (events a' env).filter (fun e => !isNotify e) ∧
    exitCode a env = exitCode a' env := by
  obtain ⟨r, bt, t, ru, ra, bd⟩ := a
  obtain ⟨r', bt', t', ru', ra', bd'⟩ := a'
  simp only at hroot hbt hrun hra hdoc hcov
  subst hroot
  subst hbt
  subst hrun
  subst hra
  subst hdoc
  by_cases hcovt : "spice_coverage" ∈ t
  · have hcovt' : "spice_coverage" ∈ t' := hcov.mp hcovt
    by_cases hcm : env.cmakeCode = 0 <;> by_cases hmk : env.makeCovCode = 0 <;>
      cases ru <;> cases bd <;>
      simp [events, exitCode, mainRun, hp, hp', pipeline, gateCode,
        hcovt, hcovt', hcm, hmk, isNotify, build_dir, doc_dir, pathJoin]
  · have hcovt' : "spice_coverage" ∉ t' := fun h => hcovt (hcov.mpr h)
    by_cases hcm : env.cmakeCode = 0 <;> by_cases hmk : env.makeCode = 0 <;>
      cases ru <;> cases bd <;>
      simp [events, exitCode, mainRun, hp, hp', pipeline, gateCode,
        hcovt, hcovt', hcm, hmk, isNotify, build_dir, doc_dir, pathJoin]

/-- Arguments selecting only `spice`. -/
def argsOnlySpice : Args :=
  { root := ".", build_type := "Debug", target := ["spice"],
    run := none, run_args := none, build_documentation := false }

/-- Arguments selecting only `tests`. -/
def argsOnlyTests : Args :=
  { root := ".", build_type := "Debug", target := ["tests"],
    run := none, run_args := none, build_documentation := false }

/-- Witness for C10 at concrete inputs: target lists `[spice]` and
`[tests]`, neither containing `spice_coverage`. -/
theorem target_selection_noninterference_witness :
    (events argsOnlySpice envAllZero).filter (fun e => !isNotify e) =
      (events argsOnlyTests envAllZero).filter (fun e => !isNotify e) ∧
    exitCode argsOnlySpice envAllZero = exitCode argsOnlyTests envAllZero :=
  target_selection_noninterference argsOnlySpice argsOnlyTests envAllZero
    (by decide) (by decide) (by decide) (by decide) (by decide) (by decide)
    (by decide) (by decide)

end BuildPy
